import Mathlib

/-!
Verification of the keyword-driven email analysis core found in
`email_project_analyzer.py` and `email_project_analyzer_2.py`.

The Python code is shallowly embedded: strings are Lean `String`s, the
Python `str.lower`, `in` (substring containment), `str.count`
(non-overlapping occurrence count) and `str.strip` emptiness test are
modelled on `List Char`; Python floats appearing in sentiment scores are
modelled as exact rationals (the score formulas only add literal decimal
constants); dictionaries returned by the analysis functions are modelled
as structures, with `Option` fields for keys that are absent on some
code path.
-/

/-- Python `str.lower` on one character, covering ASCII and the Latin-1
uppercase letters that occur in the French lexicons (`À`..`Þ` except `×`). -/
def pyLower (c : Char) : Char :=
  if ('A' ≤ c && c ≤ 'Z') || ('À' ≤ c && c ≤ 'Þ' && c ≠ '×') then
    Char.ofNat (c.toNat + 32)
  else c

/-- Python `str.lower` over a character list. -/
def lowerList (l : List Char) : List Char := l.map pyLower

/-- Python `needle in hay` substring containment on character lists. -/
def containsSub (needle : List Char) : List Char → Bool
  | [] => needle.isEmpty
  | c :: rest => needle.isPrefixOf (c :: rest) || containsSub needle rest

/-- Greedy scan underlying `pyCount`: at `skip = 0` a match consumes the
needle (the next `needle.length - 1` characters are skipped), otherwise the
scan advances one character. -/
def pyCountAux (needle : List Char) : List Char → Nat → Nat
  | [], _ => 0
  | _ :: rest, skip + 1 => pyCountAux needle rest skip
  | c :: rest, 0 =>
    if needle.isPrefixOf (c :: rest) then 1 + pyCountAux needle rest (needle.length - 1)
    else pyCountAux needle rest 0

/-- Python `hay.count(needle)`: number of non-overlapping occurrences,
scanning left to right (greedy). Python returns `len + 1` for an empty
needle. -/
def pyCount (needle hay : List Char) : Nat :=
  if needle.isEmpty then hay.length + 1 else pyCountAux needle hay 0

/-- Python whitespace characters recognised by `str.strip` (ASCII set). -/
def pyIsSpace (c : Char) : Bool :=
  c = ' ' || c = '\t' || c = '\n' || c = '\r' || c = '\x0b' || c = '\x0c'

/-- Python `not text.strip()`: every character is whitespace. -/
def pyBlank (l : List Char) : Bool := l.all pyIsSpace

/-- An already-decoded email record, as consumed by the analysis core
(`extract_email_content` produces dictionaries with these keys). -/
structure EmailRecord where
  subject : String
  sender : String
  recipient : String
  date : String
  body : String
deriving DecidableEq, Repr

/-- `f"{subject} {body}".lower()` as a character list, the text every
matcher in the core works on. -/
def lowerText (r : EmailRecord) : List Char :=
  lowerList (r.subject ++ " " ++ r.body).toList

/-- `self.risk_keywords` from `setup_basic_analyzers`. -/
def risk_keywords : List (String × Nat) :=
  [("urgent", 3), ("critique", 3), ("problème", 2), ("retard", 2), ("échéance", 2),
   ("budget", 1), ("dépassement", 3), ("erreur", 2), ("bug", 2), ("bloqué", 3),
   ("annulé", 3), ("report", 2), ("danger", 3), ("alerte", 2), ("attention", 1)]

/-- `self.positive_keywords` from `setup_basic_analyzers`. -/
def positive_keywords : List String :=
  ["réussi", "succès", "bien", "parfait", "excellent", "terminé",
   "livré", "validé", "approuvé", "satisfait", "content"]

/-- `self.negative_keywords` from `setup_basic_analyzers`. -/
def negative_keywords : List String :=
  ["problème", "erreur", "échec", "retard", "bloqué", "difficile",
   "impossible", "mauvais", "inquiet", "préoccupé", "urgent"]

/-- Result of `analyze_sentiment_basic`: a `label`/`score` dictionary. -/
structure BasicSentiment where
  label : String
  score : ℚ
deriving DecidableEq, Repr

/-- `analyze_sentiment_basic`: keyword-count sentiment with the uncapped
`0.6 + 0.1 * hits` confidence formula. -/
def analyze_sentiment_basic (text : String) : BasicSentiment :=
  let text_lower := lowerList text.toList
  let positive_count := positive_keywords.countP fun w => containsSub w.toList text_lower
  let negative_count := negative_keywords.countP fun w => containsSub w.toList text_lower
  if positive_count > negative_count then
    ⟨"POSITIVE", 6/10 + positive_count * (1/10)⟩
  else if negative_count > positive_count then
    ⟨"NEGATIVE", 6/10 + negative_count * (1/10)⟩
  else
    ⟨"NEUTRAL", 1/2⟩

/-- Result dictionary built for each email inside `analyze_sentiment`. -/
structure SentimentResult where
  subject : String
  sentiment : String
  confidence : ℚ
  date : String
  method : String
deriving Repr

/-- One iteration of the per-email loop in `analyze_sentiment`.
`ml` models the optional external sentiment pipeline: `none` means the
model is unavailable (`sentiment_available` false), `some classifier`
with `classifier text = none` models the model raising an exception on
that text, and `some classifier` with `classifier text = some result`
models a successful `self.sentiment_analyzer(text)[0]` call. A `none`
return value models the `continue` that skips a blank email. -/
def analyzeOneEmail (ml : Option (String → Option BasicSentiment))
    (email_data : EmailRecord) : Option SentimentResult :=
  let text : String := ⟨(email_data.subject ++ " " ++ email_data.body).toList.take 512⟩
  if pyBlank ((email_data.subject ++ " " ++ email_data.body).toList.take 512) then none
  else
    match ml with
    | some classifier =>
      match classifier text with
      | some result =>
        some ⟨email_data.subject, result.label, result.score, email_data.date, "ML"⟩
      | none =>
        let basic_result := analyze_sentiment_basic text
        some ⟨email_data.subject, basic_result.label, basic_result.score, email_data.date, "Basic"⟩
    | none =>
      let basic_result := analyze_sentiment_basic text
      some ⟨email_data.subject, basic_result.label, basic_result.score, email_data.date, "Basic"⟩

/-- `round(x, 2)` on the exact rational value (Python rounds the nearest
float half to even; the difference is immaterial here since no claim
constrains `confiance_moyenne`). -/
def pyRound2 (q : ℚ) : ℚ := (round (q * 100) : ℤ) / 100

/-- The aggregate dictionary built by `analyze_sentiment` when at least one
email was analysed. `sentiment_neutre` is an `Int` because Python computes
it by subtraction. -/
structure SentimentSummary where
  emails_analyses : Nat
  sentiment_positif : Nat
  sentiment_negatif : Nat
  sentiment_neutre : Int
  confiance_moyenne : ℚ
  details : List SentimentResult
  tendance : String
  methode : String
deriving Repr

/-- `analyze_sentiment`: per-email sentiment with ML fallback, then global
statistics. A `none` result models the `{"emails_analysés": 0}` dictionary
returned when no email could be analysed. -/
def analyze_sentiment (ml : Option (String → Option BasicSentiment))
    (emails : List EmailRecord) : Option SentimentSummary :=
  let sentiments := emails.filterMap (analyzeOneEmail ml)
  if sentiments.isEmpty then none
  else
    let positive_count := sentiments.countP fun s => containsSub "POSITIVE".toList s.sentiment.toList
    let negative_count := sentiments.countP fun s => containsSub "NEGATIVE".toList s.sentiment.toList
    some
      { emails_analyses := sentiments.length
        sentiment_positif := positive_count
        sentiment_negatif := negative_count
        sentiment_neutre := (sentiments.length : Int) - positive_count - negative_count
        confiance_moyenne := pyRound2 ((sentiments.map (·.confidence)).sum / sentiments.length)
        details := sentiments.drop (sentiments.length - 3)
        tendance :=
          if positive_count > negative_count then "Positive"
          else if negative_count > positive_count then "Négative"
          else "Neutre"
        methode := if ml.isSome then "ML" else "Mots-clés" }

/-- `get_recommendation`: fixed string per risk level with a generic
default (`dict.get` with a default value). -/
def get_recommendation (risk_level : String) : String :=
  if risk_level = "CRITIQUE" then "⚠️ ATTENTION IMMÉDIATE - Réviser le projet, contacter l\x27équipe"
  else if risk_level = "MODÉRÉ" then "⚡ Surveillance recommandée - Planifier un point d\x27équipe"
  else if risk_level = "FAIBLE" then "✅ Projet sur la bonne voie - Suivi normal"
  else "Suivi standard recommandé"

/-- The dictionary returned by `calculate_risk_score`. `Option` fields model
keys that the exception branch leaves out. -/
structure RiskAssessment where
  score_risque : Nat
  niveau_risque : String
  facteurs_risque : Option (List String)
  recommandation : Option String
deriving Repr

/-- `sentiment_data.get('tendance') == 'Négative'`; `none` models the
`{"emails_analysés": 0}` dictionary, which has no `tendance` key, so the
comparison is false. -/
def tendanceNegative (sentiment_data : Option SentimentSummary) : Bool :=
  match sentiment_data with
  | some s => s.tendance = "Négative"
  | none => false

/-- `calculate_risk_score` (normal, non-raising path; the unused `entities`
argument of the Python signature is dropped). -/
def calculate_risk_score (emails : List EmailRecord)
    (sentiment_data : Option SentimentSummary) : RiskAssessment :=
  let score0 : Nat := if tendanceNegative sentiment_data then 30 else 0
  let score1 : Nat := emails.foldl (fun acc r =>
    risk_keywords.foldl
      (fun a kw => if containsSub kw.1.toList (lowerText r) then a + kw.2 * 3 else a) acc) score0
  let risk_keyword_count : Nat := emails.foldl (fun acc r =>
    risk_keywords.foldl
      (fun a kw => if containsSub kw.1.toList (lowerText r) then a + 1 else a) acc) 0
  let email_count := emails.length
  let score2 : Nat :=
    if email_count > 50 then score1 + 10
    else if email_count < 3 then score1 + 15
    else score1
  let risk_level : String :=
    if score2 ≥ 60 then "CRITIQUE" else if score2 ≥ 30 then "MODÉRÉ" else "FAIBLE"
  let risk_factors : List String :=
    (if tendanceNegative sentiment_data then ["Sentiment négatif dominant"] else [])
    ++ (if risk_keyword_count > 0 then
          [toString risk_keyword_count ++ " mots-clés de risque détectés"] else [])
    ++ (if email_count > 50 then ["Volume d\x27emails élevé"]
        else if email_count < 3 then ["Activité très faible"] else [])
  { score_risque := min score2 100
    niveau_risque := risk_level
    facteurs_risque := some risk_factors
    recommandation := some (get_recommendation risk_level) }

/-- The dictionary returned by the `except` branch of
`calculate_risk_score`: score 0, level INDETERMINÉ, and no
`facteurs_risque` or `recommandation` keys. -/
def risk_error_result : RiskAssessment :=
  { score_risque := 0
    niveau_risque := "INDETERMINÉ"
    facteurs_risque := none
    recommandation := none }

/-- Total `weight * 3` contribution of one record: the sum, over the risk
lexicon, of three times the weight of every term present in the record's
lowercased subject+body. -/
def riskTermSum (r : EmailRecord) : Nat :=
  (risk_keywords.map fun kw => if containsSub kw.1.toList (lowerText r) then kw.2 * 3 else 0).sum

/-- `urgent_words` from `identify_critical_emails`. -/
def urgent_words : List String := ["urgent", "asap", "immédiat", "critique", "emergency"]

/-- One entry of the list returned by `identify_critical_emails`. -/
structure CriticalEmail where
  subject : String
  sender : String
  date : String
  criticality_score : Nat
  flags : List String
deriving DecidableEq, Repr

/-- The `criticality_score` accumulated for one record in
`identify_critical_emails`: risk-lexicon weights for terms present, plus a
flat 5 per urgency word present. -/
def criticalityScore (r : EmailRecord) : Nat :=
  risk_keywords.foldl
    (fun a kw => if containsSub kw.1.toList (lowerText r) then a + kw.2 else a) 0
  + urgent_words.foldl
    (fun a w => if containsSub w.toList (lowerText r) then a + 5 else a) 0

/-- The `flags` list accumulated for one record in `identify_critical_emails`:
matched risk terms in lexicon order, then `urgent_`-prefixed urgency words. -/
def criticalityFlags (r : EmailRecord) : List String :=
  (risk_keywords.filter fun kw => containsSub kw.1.toList (lowerText r)).map (·.1)
  ++ (urgent_words.filter fun w => containsSub w.toList (lowerText r)).map ("urgent_" ++ ·)

/-- The dictionary appended for a retained record (the `preview` field,
`body[:150]` with an ellipsis on truncation, is folded in here). -/
def mkCriticalEntry (r : EmailRecord) : CriticalEmail :=
  { subject := r.subject
    sender := r.sender
    date := r.date
    criticality_score := criticalityScore r
    flags := criticalityFlags r }

/-- Stable insertion into a descending-by-score list: the new element goes
after every earlier element with a score `≥` its own (Python `list.sort`
with `reverse=True` is stable). -/
def insertDesc (x : CriticalEmail) : List CriticalEmail → List CriticalEmail
  | [] => [x]
  | y :: ys =>
    if y.criticality_score > x.criticality_score then y :: insertDesc x ys
    else x :: y :: ys

/-- Stable descending sort by `criticality_score`, extensionally equal to
`critical_emails.sort(key=lambda x: x['criticality_score'], reverse=True)`. -/
def sortDesc : List CriticalEmail → List CriticalEmail
  | [] => []
  | x :: xs => insertDesc x (sortDesc xs)

/-- `identify_critical_emails`: keep records with criticality score `≥ 4`,
sort descending by score (stable), return the first 5. -/
def identify_critical_emails (emails : List EmailRecord) : List CriticalEmail :=
  let critical_emails := (emails.filter fun r => criticalityScore r ≥ 4).map mkCriticalEntry
  (sortDesc critical_emails).take 5

/-- `check_project_relevance` (identical in both analyzer files): the
filters whose lowercased string occurs in the lowercased subject+body,
in filter-list order. -/
def check_project_relevance (email_content : EmailRecord)
    (project_filters : List String) : List String :=
  project_filters.filter fun f => containsSub (lowerList f.toList) (lowerText email_content)

/-- The per-project email bucket built by `search_project_emails`: the
records (in processing order) whose `check_project_relevance` result
contains the project name. -/
def projectBucket (records : List EmailRecord) (project_filters : List String)
    (project : String) : List EmailRecord :=
  records.filter fun r => project ∈ check_project_relevance r project_filters

/-- `project_keywords` from `extract_keywords` in `email_project_analyzer.py`. -/
def project_keywords : List String :=
  ["deadline", "échéance", "livraison", "milestone", "étape",
   "budget", "coût", "prix", "devis", "facture",
   "réunion", "meeting", "call", "appel", "rdv",
   "urgent", "priorité", "important", "critique",
   "terminé", "fini", "complété", "livré", "deployed",
   "projet", "project", "développement", "development",
   "test", "bug", "issue", "problème", "solution"]

/-- `extract_keywords`: for each lexicon term present in the lowercased
subject+body, add `text.count(term)` to the bucket's tally (modelled as a
total function, `0` standing for an absent `defaultdict(int)` key). -/
def extract_keywords (email_content : EmailRecord)
    (keywords : String → Nat) : String → Nat :=
  project_keywords.foldl
    (fun kw k =>
      if containsSub k.toList (lowerText email_content) then
        fun t => if t = k then kw t + pyCount k.toList (lowerText email_content) else kw t
      else kw)
    keywords

/-- A bucket's keyword tally after recording a sequence of records, starting
from the empty `defaultdict(int)`. -/
def tallyKeywords (records : List EmailRecord) : String → Nat :=
  records.foldl (fun kw r => extract_keywords r kw) (fun _ => 0)

/-- C4: the basic scorer returns POSITIVE at confidence `0.6 + 0.1 * positive_hits`
when positive hits strictly exceed negative hits, symmetrically NEGATIVE, and
NEUTRAL at 0.5 on equal counts; the confidence is uncapped, and on the concrete
text `"réussi succès bien parfait excellent"` (5 positive hits, 0 negative) it
exceeds 1.0. -/
theorem analyze_sentiment_basic_spec :
    (∀ text : String,
      let p := positive_keywords.countP fun w => containsSub w.toList (lowerList text.toList)
      let n := negative_keywords.countP fun w => containsSub w.toList (lowerList text.toList)
      analyze_sentiment_basic text =
        if p > n then ⟨"POSITIVE", 6/10 + p * (1/10)⟩
        else if n > p then ⟨"NEGATIVE", 6/10 + n * (1/10)⟩
        else ⟨"NEUTRAL", 1/2⟩) ∧
    (analyze_sentiment_basic "réussi succès bien parfait excellent").score > 1 := by
  constructor
  · intro text
    rfl
  · have hp : (positive_keywords.countP fun w =>
        containsSub w.toList
          (lowerList ("réussi succès bien parfait excellent" : String).toList)) = 5 := by
      decide
    have hn : (negative_keywords.countP fun w =>
        containsSub w.toList
          (lowerList ("réussi succès bien parfait excellent" : String).toList)) = 0 := by
      decide
    simp only [analyze_sentiment_basic, hp, hn]
    norm_num

theorem foldl_ite_add {α : Type} (p : α → Bool) (f : α → Nat) (l : List α) (a : Nat) :
    l.foldl (fun acc x => if p x then acc + f x else acc) a
      = a + (l.map fun x => if p x then f x else 0).sum := by
  induction l generalizing a with
  | nil => simp
  | cons x xs ih =>
    simp only [List.foldl_cons, List.map_cons, List.sum_cons, ih]
    by_cases h : p x <;> simp [h] <;> omega

theorem foldl_add_map {α : Type} (g : α → Nat) (l : List α) (a : Nat) :
    l.foldl (fun acc x => acc + g x) a = a + (l.map g).sum := by
  induction l generalizing a with
  | nil => simp
  | cons x xs ih => simp [List.foldl_cons, ih]; omega

theorem riskScoreFold_eq (emails : List EmailRecord) (s0 : Nat) :
    emails.foldl (fun acc r =>
      risk_keywords.foldl
        (fun a kw => if containsSub kw.1.toList (lowerText r) then a + kw.2 * 3 else a) acc) s0
    = s0 + (emails.map riskTermSum).sum := by
  have hinner : (fun (acc : Nat) (r : EmailRecord) =>
      risk_keywords.foldl
        (fun a kw => if containsSub kw.1.toList (lowerText r) then a + kw.2 * 3 else a) acc)
      = fun acc r => acc + riskTermSum r := by
    funext acc r
    exact foldl_ite_add _ _ _ acc
  rw [hinner, foldl_add_map]

/-- C1: the risk assessment's score is `min raw 100 ∈ [0, 100]` where `raw`
is the order-independent sum of the sentiment bonus (+30 on a negative
trend), `weight * 3` per risk term present in each record, +10 for more
than 50 records and +15 for fewer than 3; and the level is CRITIQUE iff
score ≥ 60, MODÉRÉ iff 30 ≤ score < 60, FAIBLE iff score < 30. -/
theorem calculate_risk_score_spec (emails : List EmailRecord)
    (sentiment_data : Option SentimentSummary) :
    (calculate_risk_score emails sentiment_data).score_risque
      = min ((if tendanceNegative sentiment_data then 30 else 0)
          + (emails.map riskTermSum).sum
          + (if emails.length > 50 then 10 else 0)
          + (if emails.length < 3 then 15 else 0)) 100 ∧
    (calculate_risk_score emails sentiment_data).score_risque ≤ 100 ∧
    (∀ emails' : List EmailRecord, emails.Perm emails' →
      (calculate_risk_score emails' sentiment_data).score_risque
        = (calculate_risk_score emails sentiment_data).score_risque) ∧
    (60 ≤ (calculate_risk_score emails sentiment_data).score_risque ↔
      (calculate_risk_score emails sentiment_data).niveau_risque = "CRITIQUE") ∧
    (30 ≤ (calculate_risk_score emails sentiment_data).score_risque ∧
        (calculate_risk_score emails sentiment_data).score_risque < 60 ↔
      (calculate_risk_score emails sentiment_data).niveau_risque = "MODÉRÉ") ∧
    ((calculate_risk_score emails sentiment_data).score_risque < 30 ↔
      (calculate_risk_score emails sentiment_data).niveau_risque = "FAIBLE") := by
  have hraw : ∀ (es : List EmailRecord),
      (calculate_risk_score es sentiment_data).score_risque
        = min ((if tendanceNegative sentiment_data then 30 else 0)
            + (es.map riskTermSum).sum
            + (if es.length > 50 then 10 else 0)
            + (if es.length < 3 then 15 else 0)) 100 := by
    intro es
    simp only [calculate_risk_score, riskScoreFold_eq]
    by_cases h50 : es.length > 50 <;> by_cases h3 : es.length < 3 <;>
      simp [h50, h3] <;> omega
  have hlevel : (calculate_risk_score emails sentiment_data).niveau_risque
      = (if 60 ≤ (if tendanceNegative sentiment_data then 30 else 0)
            + (emails.map riskTermSum).sum
            + (if emails.length > 50 then 10 else 0)
            + (if emails.length < 3 then 15 else 0) then "CRITIQUE"
         else if 30 ≤ (if tendanceNegative sentiment_data then 30 else 0)
            + (emails.map riskTermSum).sum
            + (if emails.length > 50 then 10 else 0)
            + (if emails.length < 3 then 15 else 0) then "MODÉRÉ"
         else "FAIBLE") := by
    simp only [calculate_risk_score, riskScoreFold_eq]
    by_cases h50 : emails.length > 50 <;> by_cases h3 : emails.length < 3 <;>
      simp [h50, h3, ge_iff_le] <;>
      first
      | omega
      | (congr 1 <;> omega)
  set raw : Nat := (if tendanceNegative sentiment_data then 30 else 0)
      + (emails.map riskTermSum).sum
      + (if emails.length > 50 then 10 else 0)
      + (if emails.length < 3 then 15 else 0) with hrawdef
  have hscore := hraw emails
  refine ⟨hscore, ?_, ?_, ?_, ?_, ?_⟩
  · rw [hscore]; omega
  · intro emails' hperm
    rw [hraw emails', hscore, hperm.length_eq, (hperm.map riskTermSum).sum_eq]
  · rw [hscore, hlevel]
    by_cases h60 : 60 ≤ raw <;> by_cases h30 : 30 ≤ raw <;>
      simp [h60, h30, ← hrawdef] <;> first | omega | decide
  · rw [hscore, hlevel]
    by_cases h60 : 60 ≤ raw <;> by_cases h30 : 30 ≤ raw <;>
      simp [h60, h30, ← hrawdef] <;> first | omega | decide
  · rw [hscore, hlevel]
    by_cases h60 : 60 ≤ raw <;> by_cases h30 : 30 ≤ raw <;>
      simp [h60, h30, ← hrawdef] <;> first | omega | decide

/-- Witness for C1: on the empty record list with no sentiment summary the
low-activity bonus alone fires, giving score 15 and level FAIBLE, and the
score is invariant under permuting a concrete two-record list. -/
theorem calculate_risk_score_spec_witness :
    (calculate_risk_score [] none).score_risque = 15 ∧
    (calculate_risk_score [] none).niveau_risque = "FAIBLE" ∧
    (calculate_risk_score
        [⟨"b", "", "", "", ""⟩, ⟨"a urgent", "", "", "", ""⟩] none).score_risque
      = (calculate_risk_score
        [⟨"a urgent", "", "", "", ""⟩, ⟨"b", "", "", "", ""⟩] none).score_risque := by
  obtain ⟨h1, _, _, _, _, h3⟩ := calculate_risk_score_spec [] none
  obtain ⟨_, _, hperm, _, _, _⟩ := calculate_risk_score_spec
    [⟨"a urgent", "", "", "", ""⟩, ⟨"b", "", "", "", ""⟩] none
  have hs : (calculate_risk_score [] none).score_risque = 15 := by
    rw [h1]; decide
  exact ⟨hs, h3.mp (by omega),
    hperm [⟨"b", "", "", "", ""⟩, ⟨"a urgent", "", "", "", ""⟩] (List.Perm.swap _ _ _)⟩

/-- C9: on the normal path `calculate_risk_score` always returns the
`facteurs_risque` and `recommandation` keys and a level among the three
documented values, while the exception-branch dictionary has score 0,
the extra level INDETERMINÉ outside that enumeration, and lacks both
keys. -/
theorem risk_level_mem (s2 : Nat) :
    (if s2 ≥ 60 then "CRITIQUE" else if s2 ≥ 30 then "MODÉRÉ" else "FAIBLE") = "CRITIQUE" ∨
    (if s2 ≥ 60 then "CRITIQUE" else if s2 ≥ 30 then "MODÉRÉ" else "FAIBLE") = "MODÉRÉ" ∨
    (if s2 ≥ 60 then "CRITIQUE" else if s2 ≥ 30 then "MODÉRÉ" else "FAIBLE") = "FAIBLE" := by
  by_cases h60 : s2 ≥ 60
  · simp [h60]
  · by_cases h30 : s2 ≥ 30 <;> simp [h60, h30]

theorem risk_error_branch_spec :
    (∀ (emails : List EmailRecord) (sentiment_data : Option SentimentSummary),
      (calculate_risk_score emails sentiment_data).facteurs_risque.isSome = true ∧
      (calculate_risk_score emails sentiment_data).recommandation.isSome = true ∧
      ((calculate_risk_score emails sentiment_data).niveau_risque = "CRITIQUE" ∨
       (calculate_risk_score emails sentiment_data).niveau_risque = "MODÉRÉ" ∨
       (calculate_risk_score emails sentiment_data).niveau_risque = "FAIBLE")) ∧
    risk_error_result.score_risque = 0 ∧
    risk_error_result.niveau_risque = "INDETERMINÉ" ∧
    risk_error_result.facteurs_risque = none ∧
    risk_error_result.recommandation = none ∧
    risk_error_result.niveau_risque ≠ "CRITIQUE" ∧
    risk_error_result.niveau_risque ≠ "MODÉRÉ" ∧
    risk_error_result.niveau_risque ≠ "FAIBLE" := by
  refine ⟨?_, rfl, rfl, rfl, rfl, by decide, by decide, by decide⟩
  intro emails sentiment_data
  refine ⟨by simp [calculate_risk_score], by simp [calculate_risk_score], ?_⟩
  simp only [calculate_risk_score]
  exact risk_level_mem _

/-- C5: the relevance classifier returns exactly the filters whose
lowercased string occurs in the lowercased subject+body, the empty list
when none matches, and a record with an empty match list lands in no
per-project bucket. -/
theorem check_project_relevance_spec (email_content : EmailRecord)
    (project_filters : List String) :
    (∀ f : String, f ∈ check_project_relevance email_content project_filters ↔
      f ∈ project_filters ∧
        containsSub (lowerList f.toList) (lowerText email_content) = true) ∧
    ((∀ f ∈ project_filters,
        containsSub (lowerList f.toList) (lowerText email_content) = false) →
      check_project_relevance email_content project_filters = []) ∧
    (∀ (records : List EmailRecord) (project : String),
      check_project_relevance email_content project_filters = [] →
      email_content ∉ projectBucket records project_filters project) := by
  refine ⟨?_, ?_, ?_⟩
  · intro f
    simp [check_project_relevance, List.mem_filter]
  · intro h
    apply List.filter_eq_nil_iff.mpr
    intro f hf
    exact fun habs => Bool.false_ne_true ((h f hf).symm.trans habs)
  · intro records project hempty hmem
    rcases List.mem_filter.mp hmem with ⟨-, hp⟩
    rw [hempty] at hp
    simp at hp

/-- Witness for C5: on a concrete record, the filter `Atlas` matches
case-insensitively, `Zeus` does not, and with only non-matching filters the
classifier returns `[]` and the record is in no bucket. -/
theorem check_project_relevance_spec_witness :
    "Atlas" ∈ check_project_relevance
      ⟨"Atlas deadline urgent", "", "", "", "budget approved, atlas delivery urgent"⟩
      ["Atlas", "Zeus"] ∧
    check_project_relevance
      ⟨"Atlas deadline urgent", "", "", "", "budget approved, atlas delivery urgent"⟩
      ["Zeus"] = [] ∧
    ⟨"Atlas deadline urgent", "", "", "", "budget approved, atlas delivery urgent"⟩ ∉
      projectBucket
        [⟨"Atlas deadline urgent", "", "", "", "budget approved, atlas delivery urgent"⟩]
        ["Zeus"] "Zeus" := by
  have h1 := check_project_relevance_spec
    ⟨"Atlas deadline urgent", "", "", "", "budget approved, atlas delivery urgent"⟩
    ["Atlas", "Zeus"]
  have h2 := check_project_relevance_spec
    ⟨"Atlas deadline urgent", "", "", "", "budget approved, atlas delivery urgent"⟩
    ["Zeus"]
  have hempty : check_project_relevance
      ⟨"Atlas deadline urgent", "", "", "", "budget approved, atlas delivery urgent"⟩
      ["Zeus"] = [] := h2.2.1 (by decide)
  exact ⟨(h1.1 "Atlas").mpr (by refine ⟨by decide, by decide⟩),
    hempty, h2.2.2 _ "Zeus" hempty⟩

/-- C7 counterexample: invalid configuration is not rejected — with an
empty project-filter list the classifier returns normally with the empty
match list, and the per-project bucket of a one-record run is silently
empty. -/
theorem empty_filters_counterexample :
    check_project_relevance ⟨"Atlas deadline", "a@x.com", "b@y.org", "d", "body"⟩ [] = [] ∧
    projectBucket [⟨"Atlas deadline", "a@x.com", "b@y.org", "d", "body"⟩] [] "Atlas" = [] := by
  constructor
  · rfl
  · decide

/-- C7 amended: the core performs no configuration validation: an empty
filter list makes the classifier return the empty list for every record,
every bucket is empty, and the critical ranker's top-K is the fixed
constant 5 (never supplied by the caller), its output length always at
most 5. -/
theorem invalid_config_behavior (r : EmailRecord) (records : List EmailRecord)
    (project : String) :
    check_project_relevance r [] = [] ∧
    projectBucket records [] project = [] ∧
    ∀ emails : List EmailRecord, (identify_critical_emails emails).length ≤ 5 := by
  refine ⟨rfl, ?_, ?_⟩
  · apply List.filter_eq_nil.mpr
    intro a _
    simp [check_project_relevance]
  · intro emails
    simp only [identify_critical_emails]
    have := List.length_take_le 5
      (sortDesc ((emails.filter fun r => criticalityScore r ≥ 4).map mkCriticalEntry))
    simpa using this

theorem pyCountAux_eq_zero (needle hay : List Char)
    (h : containsSub needle hay = false) : pyCountAux needle hay 0 = 0 := by
  induction hay with
  | nil => rfl
  | cons c rest ih =>
    have h2 : needle.isPrefixOf (c :: rest) = false ∧ containsSub needle rest = false := by
      simpa only [containsSub, Bool.or_eq_false_iff] using h
    simp only [pyCountAux, h2.1, Bool.false_eq_true, if_false]
    exact ih h2.2

theorem pyCount_eq_zero_of_not_contains (needle hay : List Char)
    (h : containsSub needle hay = false) : pyCount needle hay = 0 := by
  have hne : needle.isEmpty = false := by
    cases needle with
    | nil => cases hay <;> simp [containsSub, List.isPrefixOf] at h
    | cons a as => rfl
  rw [pyCount, hne]
  simp only [Bool.false_eq_true, if_false]
  exact pyCountAux_eq_zero _ _ h

theorem foldl_update_lookup (text : List Char) (l : List String)
    (kw : String → Nat) (t : String) (hnd : l.Nodup) :
    (l.foldl (fun kw k =>
      if containsSub k.toList text then
        fun s => if s = k then kw s + pyCount k.toList text else kw s
      else kw) kw) t
    = kw t + (if t ∈ l then pyCount t.toList text else 0) := by
  induction l generalizing kw with
  | nil => simp
  | cons k ks ih =>
    have hk : k ∉ ks := (List.nodup_cons.mp hnd).1
    rw [List.foldl_cons, ih _ (List.nodup_cons.mp hnd).2]
    simp only [String.toList]
    by_cases ht : t = k
    · subst ht
      have htns : t ∉ ks := hk
      by_cases hc : containsSub t.data text = true
      · simp [hc, htns]
      · have hz : pyCount t.data text = 0 :=
          pyCount_eq_zero_of_not_contains _ _ (Bool.not_eq_true _ ▸ hc)
        simp [hc, htns, hz]
    · by_cases hc : containsSub k.data text = true
      · simp [hc, ht, List.mem_cons]
      · simp [hc, ht, List.mem_cons]

theorem extract_keywords_lookup (email_content : EmailRecord)
    (kw : String → Nat) (t : String) :
    extract_keywords email_content kw t
      = kw t + (if t ∈ project_keywords then pyCount t.toList (lowerText email_content) else 0) :=
  foldl_update_lookup (lowerText email_content) project_keywords kw t (by decide)

/-- C6: a bucket's tally for a lexicon term is the sum over its recorded
records of `text.count(term)` on the lowercased subject+body, and recording
one more record never decreases any key of the tally. -/
theorem tallyKeywords_spec (t : String) (records : List EmailRecord)
    (ht : t ∈ project_keywords) :
    tallyKeywords records t
      = (records.map fun r => pyCount t.toList (lowerText r)).sum ∧
    (∀ (kw : String → Nat) (r : EmailRecord) (s : String),
      kw s ≤ extract_keywords r kw s) := by
  constructor
  · have hgen : ∀ kw : String → Nat,
        (records.foldl (fun kw r => extract_keywords r kw) kw) t
          = kw t + (records.map fun r => pyCount t.toList (lowerText r)).sum := by
      induction records with
      | nil => intro kw; simp
      | cons r rs ih =>
        intro kw
        rw [List.foldl_cons, ih, extract_keywords_lookup]
        simp only [ht, if_pos, List.map_cons, List.sum_cons]
        omega
    simpa [tallyKeywords] using hgen (fun _ => 0)
  · intro kw r s
    rw [extract_keywords_lookup]
    exact Nat.le_add_right _ _

/-- Witness for C6: on one record whose text contains `urgent` twice, the
tally for `urgent` equals the single-record count `2`, and recording the
record does not decrease the empty tally. -/
theorem tallyKeywords_spec_witness :
    "urgent" ∈ project_keywords ∧
    tallyKeywords [⟨"urgent urgent", "", "", "", "rien"⟩] "urgent"
      = (([⟨"urgent urgent", "", "", "", "rien"⟩] : List EmailRecord).map fun r =>
          pyCount "urgent".toList (lowerText r)).sum ∧
    tallyKeywords [⟨"urgent urgent", "", "", "", "rien"⟩] "urgent" = 2 ∧
    (fun _ : String => 0) "urgent"
      ≤ extract_keywords ⟨"urgent urgent", "", "", "", "rien"⟩ (fun _ => 0) "urgent" := by
  have h := tallyKeywords_spec "urgent" [⟨"urgent urgent", "", "", "", "rien"⟩] (by decide)
  exact ⟨by decide, h.1, by decide,
    h.2 (fun _ => 0) ⟨"urgent urgent", "", "", "", "rien"⟩ "urgent"⟩

theorem criticalityScore_eq (r : EmailRecord) :
    criticalityScore r
      = (risk_keywords.map fun kw =>
          if containsSub kw.1.toList (lowerText r) then kw.2 else 0).sum
        + (urgent_words.map fun w =>
          if containsSub w.toList (lowerText r) then 5 else 0).sum := by
  unfold criticalityScore
  rw [foldl_ite_add (fun kw : String × Nat => containsSub kw.1.toList (lowerText r))
        (fun kw => kw.2),
      foldl_ite_add (fun w : String => containsSub w.toList (lowerText r)) (fun _ => 5)]
  omega

/-- C10: `urgent` and `critique` sit in both the risk lexicon (weight 3)
and the urgency list (+5), so a record containing either term scores at
least 8, carries both the bare and the `urgent_`-prefixed flag, and always
clears the retention threshold of 4. -/
theorem urgent_critique_overlap (r : EmailRecord)
    (h : containsSub "urgent".toList (lowerText r) = true ∨
         containsSub "critique".toList (lowerText r) = true) :
    8 ≤ criticalityScore r ∧ 4 ≤ criticalityScore r ∧
    ("urgent", 3) ∈ risk_keywords ∧ "urgent" ∈ urgent_words ∧
    ("critique", 3) ∈ risk_keywords ∧ "critique" ∈ urgent_words ∧
    (containsSub "urgent".toList (lowerText r) = true →
      "urgent" ∈ criticalityFlags r ∧ "urgent_urgent" ∈ criticalityFlags r) ∧
    (containsSub "critique".toList (lowerText r) = true →
      "critique" ∈ criticalityFlags r ∧ "urgent_critique" ∈ criticalityFlags r) := by
  have hrisk : ∀ term : String, (term, 3) ∈ risk_keywords →
      containsSub term.toList (lowerText r) = true →
      3 ≤ (risk_keywords.map fun kw =>
        if containsSub kw.1.toList (lowerText r) then kw.2 else 0).sum := by
    intro term hmem hc
    simp only [String.toList] at hc
    have he : (3 : Nat) = (fun kw : String × Nat =>
        if containsSub kw.1.toList (lowerText r) then kw.2 else 0) (term, 3) := by
      simp [hc]
    rw [he]
    exact List.single_le_sum (fun x _ => Nat.zero_le x) _ (List.mem_map_of_mem _ hmem)
  have hurg : ∀ w0 : String, w0 ∈ urgent_words →
      containsSub w0.toList (lowerText r) = true →
      5 ≤ (urgent_words.map fun w =>
        if containsSub w.toList (lowerText r) then 5 else 0).sum := by
    intro w0 hmem hc
    simp only [String.toList] at hc
    have hle := List.single_le_sum (l := urgent_words.map fun w =>
        if containsSub w.toList (lowerText r) then 5 else 0)
      (fun x _ => Nat.zero_le x) _
      (List.mem_map_of_mem
        (fun w : String => if containsSub w.toList (lowerText r) then 5 else 0) hmem)
    simpa [hc] using hle
  have h8 : 8 ≤ criticalityScore r := by
    rw [criticalityScore_eq]
    rcases h with hc | hc
    · have h1 := hrisk "urgent" (by decide) hc
      have h2 := hurg "urgent" (by decide) hc
      omega
    · have h1 := hrisk "critique" (by decide) hc
      have h2 := hurg "critique" (by decide) hc
      omega
  refine ⟨h8, by omega, by decide, by decide, by decide, by decide, ?_, ?_⟩
  · intro hc
    unfold criticalityFlags
    exact ⟨List.mem_append_left _
        (List.mem_map.mpr ⟨("urgent", 3), List.mem_filter.mpr ⟨by decide, hc⟩, rfl⟩),
      List.mem_append_right _
        (List.mem_map.mpr ⟨"urgent", List.mem_filter.mpr ⟨by decide, hc⟩, by decide⟩)⟩
  · intro hc
    unfold criticalityFlags
    exact ⟨List.mem_append_left _
        (List.mem_map.mpr ⟨("critique", 3), List.mem_filter.mpr ⟨by decide, hc⟩, rfl⟩),
      List.mem_append_right _
        (List.mem_map.mpr ⟨"critique", List.mem_filter.mpr ⟨by decide, hc⟩, by decide⟩)⟩

/-- Witness for C10: the record with subject `Critique retard` contains
`critique` after lowercasing, scores at least 8, and carries both flags. -/
theorem urgent_critique_overlap_witness :
    containsSub "critique".toList (lowerText ⟨"Critique retard", "", "", "", ""⟩) = true ∧
    8 ≤ criticalityScore ⟨"Critique retard", "", "", "", ""⟩ ∧
    "critique" ∈ criticalityFlags ⟨"Critique retard", "", "", "", ""⟩ ∧
    "urgent_critique" ∈ criticalityFlags ⟨"Critique retard", "", "", "", ""⟩ := by
  have hc : containsSub "critique".toList
      (lowerText ⟨"Critique retard", "", "", "", ""⟩) = true := by decide
  have h := urgent_critique_overlap ⟨"Critique retard", "", "", "", ""⟩ (Or.inr hc)
  exact ⟨hc, h.1, (h.2.2.2.2.2.2.2 hc).1, (h.2.2.2.2.2.2.2 hc).2⟩

/-- C8: for a non-blank record the per-email sentiment step always returns a
result (no exception escapes): with no ML collaborator or a raising one it
is the deterministic basic scorer's result tagged `Basic`, with a working
collaborator it is the ML result tagged `ML`, and the method recorded is
always one of the two. -/
theorem ml_fallback_spec (ml : Option (String → Option BasicSentiment))
    (email_data : EmailRecord)
    (hnb : pyBlank ((email_data.subject ++ " " ++ email_data.body).toList.take 512) = false) :
    (∃ res : SentimentResult, analyzeOneEmail ml email_data = some res) ∧
    (∀ res, analyzeOneEmail ml email_data = some res →
      res.method = "ML" ∨ res.method = "Basic") ∧
    (ml = none → analyzeOneEmail ml email_data = some
      ⟨email_data.subject,
       (analyze_sentiment_basic ⟨(email_data.subject ++ " " ++ email_data.body).toList.take 512⟩).label,
       (analyze_sentiment_basic ⟨(email_data.subject ++ " " ++ email_data.body).toList.take 512⟩).score,
       email_data.date, "Basic"⟩) ∧
    (∀ classifier, ml = some classifier →
      classifier ⟨(email_data.subject ++ " " ++ email_data.body).toList.take 512⟩ = none →
      analyzeOneEmail ml email_data = some
        ⟨email_data.subject,
         (analyze_sentiment_basic ⟨(email_data.subject ++ " " ++ email_data.body).toList.take 512⟩).label,
         (analyze_sentiment_basic ⟨(email_data.subject ++ " " ++ email_data.body).toList.take 512⟩).score,
         email_data.date, "Basic"⟩) ∧
    (∀ classifier result, ml = some classifier →
      classifier ⟨(email_data.subject ++ " " ++ email_data.body).toList.take 512⟩ = some result →
      analyzeOneEmail ml email_data = some
        ⟨email_data.subject, result.label, result.score, email_data.date, "ML"⟩) := by
  refine ⟨?_, ?_, ?_, ?_, ?_⟩
  · cases ml with
    | none =>
      refine ⟨⟨email_data.subject,
        (analyze_sentiment_basic ⟨(email_data.subject ++ " " ++ email_data.body).toList.take 512⟩).label,
        (analyze_sentiment_basic ⟨(email_data.subject ++ " " ++ email_data.body).toList.take 512⟩).score,
        email_data.date, "Basic"⟩, ?_⟩
      simp only [analyzeOneEmail, hnb, Bool.false_eq_true, if_false]
    | some classifier =>
      cases hct : classifier ⟨(email_data.subject ++ " " ++ email_data.body).toList.take 512⟩ with
      | none =>
        refine ⟨⟨email_data.subject,
          (analyze_sentiment_basic ⟨(email_data.subject ++ " " ++ email_data.body).toList.take 512⟩).label,
          (analyze_sentiment_basic ⟨(email_data.subject ++ " " ++ email_data.body).toList.take 512⟩).score,
          email_data.date, "Basic"⟩, ?_⟩
        simp only [analyzeOneEmail, hnb, Bool.false_eq_true, if_false, hct]
      | some result =>
        refine ⟨⟨email_data.subject, result.label, result.score, email_data.date, "ML"⟩, ?_⟩
        simp only [analyzeOneEmail, hnb, Bool.false_eq_true, if_false, hct]
  · intro res hres
    cases ml with
    | none =>
      simp only [analyzeOneEmail, hnb, Bool.false_eq_true, if_false] at hres
      injection hres with h
      rw [← h]
      exact Or.inr rfl
    | some classifier =>
      cases hct : classifier ⟨(email_data.subject ++ " " ++ email_data.body).toList.take 512⟩ with
      | none =>
        simp only [analyzeOneEmail, hnb, Bool.false_eq_true, if_false, hct] at hres
        injection hres with h
        rw [← h]
        exact Or.inr rfl
      | some result =>
        simp only [analyzeOneEmail, hnb, Bool.false_eq_true, if_false, hct] at hres
        injection hres with h
        rw [← h]
        exact Or.inl rfl
  · intro hml
    subst hml
    simp only [analyzeOneEmail, hnb, Bool.false_eq_true, if_false]
  · intro classifier hml hct
    subst hml
    simp only [analyzeOneEmail, hnb, Bool.false_eq_true, if_false, hct]
  · intro classifier result hml hct
    subst hml
    simp only [analyzeOneEmail, hnb, Bool.false_eq_true, if_false, hct]

/-- Witness for C8: on a concrete record, an absent collaborator and a
raising collaborator both produce the Basic-tagged fallback result, and a
working collaborator produces the ML-tagged result. -/
theorem ml_fallback_spec_witness :
    analyzeOneEmail none ⟨"retard projet", "", "", "", ""⟩ = some
      ⟨"retard projet",
       (analyze_sentiment_basic ⟨("retard projet" ++ " " ++ "").toList.take 512⟩).label,
       (analyze_sentiment_basic ⟨("retard projet" ++ " " ++ "").toList.take 512⟩).score,
       "", "Basic"⟩ ∧
    analyzeOneEmail (some fun _ => none) ⟨"retard projet", "", "", "", ""⟩ = some
      ⟨"retard projet",
       (analyze_sentiment_basic ⟨("retard projet" ++ " " ++ "").toList.take 512⟩).label,
       (analyze_sentiment_basic ⟨("retard projet" ++ " " ++ "").toList.take 512⟩).score,
       "", "Basic"⟩ ∧
    analyzeOneEmail (some fun _ => some ⟨"NEGATIVE", 9/10⟩) ⟨"retard projet", "", "", "", ""⟩
      = some ⟨"retard projet", "NEGATIVE", 9/10, "", "ML"⟩ := by
  have h1 := ml_fallback_spec none ⟨"retard projet", "", "", "", ""⟩ (by decide)
  have h2 := ml_fallback_spec (some fun _ => none) ⟨"retard projet", "", "", "", ""⟩ (by decide)
  have h3 := ml_fallback_spec (some fun _ => some ⟨"NEGATIVE", 9/10⟩)
    ⟨"retard projet", "", "", "", ""⟩ (by decide)
  exact ⟨h1.2.2.1 rfl, h2.2.2.2.1 _ rfl rfl, h3.2.2.2.2 _ ⟨"NEGATIVE", 9/10⟩ rfl rfl⟩

theorem analyzeOneEmail_eq_none_iff (ml : Option (String → Option BasicSentiment))
    (r : EmailRecord) :
    analyzeOneEmail ml r = none ↔
      pyBlank ((r.subject ++ " " ++ r.body).toList.take 512) = true := by
  cases hb : pyBlank ((r.subject ++ " " ++ r.body).toList.take 512) with
  | true =>
    simp only [analyzeOneEmail, hb, eq_self_iff_true, if_true]
  | false =>
    simp only [analyzeOneEmail, hb, Bool.false_eq_true, if_false, iff_false]
    intro habs
    cases ml with
    | none => exact Option.noConfusion habs
    | some classifier =>
      cases hct : classifier ⟨(r.subject ++ " " ++ r.body).toList.take 512⟩ with
      | none =>
        simp only [hct] at habs
        exact Option.noConfusion habs
      | some result =>
        simp only [hct] at habs
        exact Option.noConfusion habs

theorem analyzeOneEmail_isSome (ml : Option (String → Option BasicSentiment))
    (r : EmailRecord) :
    (analyzeOneEmail ml r).isSome
      = !pyBlank ((r.subject ++ " " ++ r.body).toList.take 512) := by
  cases hb : pyBlank ((r.subject ++ " " ++ r.body).toList.take 512) with
  | false =>
    have hne : analyzeOneEmail ml r ≠ none := fun hc =>
      by rw [(analyzeOneEmail_eq_none_iff ml r).mp hc] at hb; cases hb
    cases hopt : analyzeOneEmail ml r with
    | none => exact absurd hopt hne
    | some s => rfl
  | true =>
    rw [(analyzeOneEmail_eq_none_iff ml r).mpr hb]
    rfl

theorem basic_label_cases (text : String) :
    (analyze_sentiment_basic text).label = "POSITIVE" ∨
    (analyze_sentiment_basic text).label = "NEGATIVE" ∨
    (analyze_sentiment_basic text).label = "NEUTRAL" := by
  simp only [analyze_sentiment_basic]
  split
  · exact Or.inl rfl
  · split
    · exact Or.inr (Or.inl rfl)
    · exact Or.inr (Or.inr rfl)

theorem length_filterMap_countP {α β : Type} (f : α → Option β) (l : List α) :
    (l.filterMap f).length = l.countP fun a => (f a).isSome := by
  induction l with
  | nil => rfl
  | cons x xs ih =>
    cases hfx : f x <;>
      simp [List.filterMap_cons, hfx, List.countP_cons, ih, Nat.add_comm]

theorem sentiment_label_of_basic (r : EmailRecord) (s : SentimentResult)
    (hr : analyzeOneEmail none r = some s) :
    s.sentiment = "POSITIVE" ∨ s.sentiment = "NEGATIVE" ∨ s.sentiment = "NEUTRAL" := by
  simp only [analyzeOneEmail] at hr
  split at hr
  · exact Option.noConfusion hr
  · injection hr with h
    rw [← h]
    exact basic_label_cases _

theorem sentiment_count_partition (l : List SentimentResult)
    (h3 : ∀ s ∈ l, s.sentiment = "POSITIVE" ∨ s.sentiment = "NEGATIVE" ∨
      s.sentiment = "NEUTRAL") :
    l.countP (fun s => s.sentiment = "POSITIVE")
      + l.countP (fun s => s.sentiment = "NEGATIVE")
      + l.countP (fun s => s.sentiment = "NEUTRAL") = l.length := by
  induction l with
  | nil => rfl
  | cons x xs ih =>
    have hx := h3 x (List.mem_cons_self _ _)
    have hxs := ih fun s hs => h3 s (List.mem_cons_of_mem _ hs)
    rcases hx with h | h | h <;>
      simp [List.countP_cons, h] <;> omega

theorem tendance_iff (pos neg : Nat) :
    ((if pos > neg then "Positive" else if neg > pos then "Négative" else "Neutre")
        = "Positive" ↔ neg < pos) ∧
    ((if pos > neg then "Positive" else if neg > pos then "Négative" else "Neutre")
        = "Négative" ↔ pos < neg) ∧
    ((if pos > neg then "Positive" else if neg > pos then "Négative" else "Neutre")
        = "Neutre" ↔ pos = neg) := by
  by_cases h1 : pos > neg
  · rw [if_pos h1]
    exact ⟨iff_of_true rfl h1, iff_of_false (by decide) (by omega),
      iff_of_false (by decide) (by omega)⟩
  · rw [if_neg h1]
    by_cases h2 : neg > pos
    · rw [if_pos h2]
      exact ⟨iff_of_false (by decide) (by omega), iff_of_true rfl h2,
        iff_of_false (by decide) (by omega)⟩
    · rw [if_neg h2]
      exact ⟨iff_of_false (by decide) (by omega), iff_of_false (by decide) (by omega),
        iff_of_true rfl (by omega)⟩

/-- C3: the aggregate summary tallies per-email labels (exact
POSITIVE/NEGATIVE/NEUTRAL counts on the basic path), the trend is the label
with the strictly greater count and Neutre on a tie, and records whose
subject+body truncated to 512 characters is whitespace-only are skipped and
do not count toward the number of analysed emails. -/
theorem analyze_sentiment_spec (ml : Option (String → Option BasicSentiment))
    (emails : List EmailRecord) (ss : SentimentSummary)
    (hss : analyze_sentiment ml emails = some ss) :
    (∀ r : EmailRecord, analyzeOneEmail ml r = none ↔
      pyBlank ((r.subject ++ " " ++ r.body).toList.take 512) = true) ∧
    ss.emails_analyses
      = emails.countP (fun r => !pyBlank ((r.subject ++ " " ++ r.body).toList.take 512)) ∧
    ss.sentiment_positif = (emails.filterMap (analyzeOneEmail ml)).countP
      (fun s => containsSub "POSITIVE".toList s.sentiment.toList) ∧
    ss.sentiment_negatif = (emails.filterMap (analyzeOneEmail ml)).countP
      (fun s => containsSub "NEGATIVE".toList s.sentiment.toList) ∧
    (ss.tendance = "Positive" ↔ ss.sentiment_negatif < ss.sentiment_positif) ∧
    (ss.tendance = "Négative" ↔ ss.sentiment_positif < ss.sentiment_negatif) ∧
    (ss.tendance = "Neutre" ↔ ss.sentiment_positif = ss.sentiment_negatif) ∧
    (ml = none →
      ss.sentiment_positif = (emails.filterMap (analyzeOneEmail none)).countP
        (fun s => s.sentiment = "POSITIVE") ∧
      ss.sentiment_negatif = (emails.filterMap (analyzeOneEmail none)).countP
        (fun s => s.sentiment = "NEGATIVE") ∧
      ss.sentiment_neutre = ((emails.filterMap (analyzeOneEmail none)).countP
        (fun s => s.sentiment = "NEUTRAL") : Int)) := by
  have hemp : (emails.filterMap (analyzeOneEmail ml)).isEmpty = false := by
    cases hq : (emails.filterMap (analyzeOneEmail ml)).isEmpty with
    | false => rfl
    | true =>
      exfalso
      simp only [analyze_sentiment, hq, eq_self_iff_true, if_true] at hss
      exact Option.noConfusion hss
  simp only [analyze_sentiment, hemp, Bool.false_eq_true, if_false] at hss
  injection hss with hss
  subst hss
  refine ⟨fun r => analyzeOneEmail_eq_none_iff ml r, ?_, rfl, rfl, ?_, ?_, ?_, ?_⟩
  · show (emails.filterMap (analyzeOneEmail ml)).length = _
    rw [length_filterMap_countP]
    exact List.countP_congr fun r _ => by rw [analyzeOneEmail_isSome ml r]
  · exact (tendance_iff _ _).1
  · exact (tendance_iff _ _).2.1
  · exact (tendance_iff _ _).2.2
  · intro hml
    subst hml
    have hmem3 : ∀ s ∈ emails.filterMap (analyzeOneEmail none),
        s.sentiment = "POSITIVE" ∨ s.sentiment = "NEGATIVE" ∨ s.sentiment = "NEUTRAL" := by
      intro s hs
      rcases List.mem_filterMap.mp hs with ⟨r, -, hr⟩
      exact sentiment_label_of_basic r s hr
    have hc1 : (emails.filterMap (analyzeOneEmail none)).countP
          (fun s => containsSub "POSITIVE".toList s.sentiment.toList)
        = (emails.filterMap (analyzeOneEmail none)).countP
          (fun s => s.sentiment = "POSITIVE") :=
      List.countP_congr fun s hs => by
        rcases hmem3 s hs with h | h | h <;> rw [h] <;> decide
    have hc2 : (emails.filterMap (analyzeOneEmail none)).countP
          (fun s => containsSub "NEGATIVE".toList s.sentiment.toList)
        = (emails.filterMap (analyzeOneEmail none)).countP
          (fun s => s.sentiment = "NEGATIVE") :=
      List.countP_congr fun s hs => by
        rcases hmem3 s hs with h | h | h <;> rw [h] <;> decide
    have hpart := sentiment_count_partition (emails.filterMap (analyzeOneEmail none)) hmem3
    refine ⟨hc1, hc2, ?_⟩
    show ((emails.filterMap (analyzeOneEmail none)).length : Int) - _ - _ = _
    rw [hc1, hc2]
    omega

/-- Witness for C3: one blank record is skipped, one positive record is
counted, and the trend on a concrete run is Positive. -/
theorem analyze_sentiment_spec_witness :
    analyzeOneEmail none ⟨" ", "", "", "", ""⟩ = none ∧
    (analyze_sentiment none [⟨" ", "", "", "", ""⟩, ⟨"réussi", "", "", "", ""⟩]).map
      (·.emails_analyses) = some 1 ∧
    (analyze_sentiment none [⟨" ", "", "", "", ""⟩, ⟨"réussi", "", "", "", ""⟩]).map
      (·.tendance) = some "Positive" := by
  cases hs : analyze_sentiment none [⟨" ", "", "", "", ""⟩, ⟨"réussi", "", "", "", ""⟩] with
  | none =>
    exfalso
    have hsome : (analyze_sentiment none
        [⟨" ", "", "", "", ""⟩, ⟨"réussi", "", "", "", ""⟩]).isSome = true := rfl
    rw [hs] at hsome
    exact Bool.noConfusion hsome
  | some ss =>
    have h := analyze_sentiment_spec none
      [⟨" ", "", "", "", ""⟩, ⟨"réussi", "", "", "", ""⟩] ss hs
    refine ⟨(h.1 ⟨" ", "", "", "", ""⟩).mpr (by decide), ?_, ?_⟩
    · exact congrArg some (h.2.1.trans (by decide))
    · exact congrArg some ((h.2.2.2.2.1).mpr (by rw [h.2.2.1, h.2.2.2.1]; decide))

theorem mem_insertDesc (x a : CriticalEmail) (l : List CriticalEmail) :
    a ∈ insertDesc x l ↔ a = x ∨ a ∈ l := by
  induction l with
  | nil => simp [insertDesc]
  | cons y ys ih =>
    simp only [insertDesc]
    by_cases h : y.criticality_score > x.criticality_score
    · rw [if_pos h]
      simp only [List.mem_cons, ih]
      tauto
    · rw [if_neg h]
      simp only [List.mem_cons]

theorem mem_sortDesc (a : CriticalEmail) (l : List CriticalEmail) :
    a ∈ sortDesc l ↔ a ∈ l := by
  induction l with
  | nil => simp [sortDesc]
  | cons x xs ih =>
    simp only [sortDesc, mem_insertDesc, List.mem_cons, ih]

theorem length_sortDesc (l : List CriticalEmail) :
    (sortDesc l).length = l.length := by
  induction l with
  | nil => rfl
  | cons x xs ih =>
    have hlen : ∀ (c : CriticalEmail) (m : List CriticalEmail),
        (insertDesc c m).length = m.length + 1 := by
      intro c m
      induction m with
      | nil => rfl
      | cons y ys ihm =>
        simp only [insertDesc]
        by_cases h : y.criticality_score > c.criticality_score
        · rw [if_pos h]
          simp [ihm]
        · rw [if_neg h]
          simp
    simp only [sortDesc, hlen, ih, List.length_cons]

theorem sorted_insertDesc (x : CriticalEmail) (l : List CriticalEmail)
    (hl : l.Pairwise fun a b => b.criticality_score ≤ a.criticality_score) :
    (insertDesc x l).Pairwise fun a b => b.criticality_score ≤ a.criticality_score := by
  induction l with
  | nil => simp [insertDesc]
  | cons y ys ih =>
    rcases List.pairwise_cons.mp hl with ⟨hy, hys⟩
    simp only [insertDesc]
    by_cases h : y.criticality_score > x.criticality_score
    · rw [if_pos h]
      refine List.pairwise_cons.mpr ⟨?_, ih hys⟩
      intro b hb
      rcases (mem_insertDesc x b ys).mp hb with rfl | hbys
      · omega
      · exact hy b hbys
    · rw [if_neg h]
      refine List.pairwise_cons.mpr ⟨?_, hl⟩
      intro b hb
      rcases List.mem_cons.mp hb with rfl | hbys
      · omega
      · have := hy b hbys
        omega

theorem sorted_sortDesc (l : List CriticalEmail) :
    (sortDesc l).Pairwise fun a b => b.criticality_score ≤ a.criticality_score := by
  induction l with
  | nil => exact List.Pairwise.nil
  | cons x xs ih => exact sorted_insertDesc x (sortDesc xs) ih

theorem filter_insertDesc (x : CriticalEmail) (l : List CriticalEmail) (k : Nat) :
    (insertDesc x l).filter (fun c => c.criticality_score = k)
      = if x.criticality_score = k
          then x :: l.filter (fun c => c.criticality_score = k)
          else l.filter (fun c => c.criticality_score = k) := by
  induction l with
  | nil =>
    simp only [insertDesc]
    by_cases hx : x.criticality_score = k <;> simp [hx]
  | cons y ys ih =>
    simp only [insertDesc]
    by_cases h : y.criticality_score > x.criticality_score
    · rw [if_pos h]
      by_cases hx : x.criticality_score = k
      · have hyk : ¬(y.criticality_score = k) := by omega
        simp [List.filter_cons, hyk, hx, ih]
      · simp [List.filter_cons, ih, hx]
    · rw [if_neg h]
      by_cases hx : x.criticality_score = k <;> simp [List.filter_cons, hx]

theorem filter_sortDesc (l : List CriticalEmail) (k : Nat) :
    (sortDesc l).filter (fun c => c.criticality_score = k)
      = l.filter (fun c => c.criticality_score = k) := by
  induction l with
  | nil => rfl
  | cons x xs ih =>
    simp only [sortDesc, filter_insertDesc, ih]
    by_cases hx : x.criticality_score = k <;> simp [List.filter_cons, hx]

/-- C2 amended: every returned entry scores ≥ 4; the returned list is the
first 5 of the stable descending sort of the entries for records scoring
≥ 4 (sorted descending, stable in the filter-by-score sense); its length is
at most 5; and membership is equivalent to clearing the ≥ 4 threshold
whenever at most 5 records qualify — the truncation to the fixed
`top_k = 5` breaks the unconditional equivalence. -/
theorem identify_critical_emails_spec (emails : List EmailRecord) :
    identify_critical_emails emails
      = (sortDesc ((emails.filter fun r => criticalityScore r ≥ 4).map
          mkCriticalEntry)).take 5 ∧
    (∀ c ∈ identify_critical_emails emails, c.criticality_score ≥ 4) ∧
    (identify_critical_emails emails).Pairwise
      (fun a b => b.criticality_score ≤ a.criticality_score) ∧
    (identify_critical_emails emails).length ≤ 5 ∧
    (∀ k : Nat,
      (sortDesc ((emails.filter fun r => criticalityScore r ≥ 4).map
          mkCriticalEntry)).filter (fun c => c.criticality_score = k)
        = ((emails.filter fun r => criticalityScore r ≥ 4).map
          mkCriticalEntry).filter (fun c => c.criticality_score = k)) ∧
    ((emails.countP fun r => criticalityScore r ≥ 4) ≤ 5 →
      ∀ r ∈ emails,
        (mkCriticalEntry r ∈ identify_critical_emails emails ↔
          criticalityScore r ≥ 4)) := by
  have hid : identify_critical_emails emails
      = (sortDesc ((emails.filter fun r => criticalityScore r ≥ 4).map
          mkCriticalEntry)).take 5 := rfl
  refine ⟨hid, ?_, ?_, ?_, fun k => filter_sortDesc _ k, ?_⟩
  · intro c hc
    rw [hid] at hc
    have h1 := List.take_subset 5 _ hc
    rcases List.mem_map.mp ((mem_sortDesc _ _).mp h1) with ⟨r, hr, heq⟩
    have h4 : criticalityScore r ≥ 4 := of_decide_eq_true (List.mem_filter.mp hr).2
    rw [← heq]
    exact h4
  · rw [hid]
    exact (sorted_sortDesc _).sublist (List.take_sublist 5 _)
  · rw [hid]
    have := List.length_take_le 5
      (sortDesc ((emails.filter fun r => criticalityScore r ≥ 4).map mkCriticalEntry))
    simpa using this
  · intro hcount r hr
    have hlen : ((emails.filter fun r => criticalityScore r ≥ 4).map
        mkCriticalEntry).length ≤ 5 := by
      rw [List.length_map, ← List.countP_eq_length_filter]
      exact hcount
    have htake : (sortDesc ((emails.filter fun r => criticalityScore r ≥ 4).map
          mkCriticalEntry)).take 5
        = sortDesc ((emails.filter fun r => criticalityScore r ≥ 4).map
          mkCriticalEntry) := by
      apply List.take_of_length_le
      rw [length_sortDesc]
      exact hlen
    constructor
    · intro hmem
      rw [hid, htake] at hmem
      rcases List.mem_map.mp ((mem_sortDesc _ _).mp hmem) with ⟨r', hr', heq⟩
      have h4' : criticalityScore r' ≥ 4 := of_decide_eq_true (List.mem_filter.mp hr').2
      have hsc : criticalityScore r' = criticalityScore r :=
        congrArg CriticalEmail.criticality_score heq
      omega
    · intro h4
      rw [hid, htake]
      apply (mem_sortDesc _ _).mpr
      exact List.mem_map_of_mem mkCriticalEntry
        (List.mem_filter.mpr ⟨hr, decide_eq_true h4⟩)

/-- C2 counterexample: six records all containing `urgent` each score 8
(≥ 4), but the sixth entry is missing from the returned list, which is
truncated to 5 — so membership is not equivalent to scoring ≥ 4. -/
theorem identify_critical_emails_counterexample :
    criticalityScore ⟨"urgent 6", "", "", "", ""⟩ ≥ 4 ∧
    (⟨"urgent 6", "", "", "", ""⟩ : EmailRecord) ∈
      ([⟨"urgent 1", "", "", "", ""⟩, ⟨"urgent 2", "", "", "", ""⟩,
        ⟨"urgent 3", "", "", "", ""⟩, ⟨"urgent 4", "", "", "", ""⟩,
        ⟨"urgent 5", "", "", "", ""⟩, ⟨"urgent 6", "", "", "", ""⟩] : List EmailRecord) ∧
    mkCriticalEntry ⟨"urgent 6", "", "", "", ""⟩ ∉
      identify_critical_emails
        [⟨"urgent 1", "", "", "", ""⟩, ⟨"urgent 2", "", "", "", ""⟩,
         ⟨"urgent 3", "", "", "", ""⟩, ⟨"urgent 4", "", "", "", ""⟩,
         ⟨"urgent 5", "", "", "", ""⟩, ⟨"urgent 6", "", "", "", ""⟩] := by
  refine ⟨by decide, by decide, by decide⟩

/-- Witness for C2: with a single qualifying record (score 10 ≥ 4) the
membership equivalence holds and the entry is returned. -/
theorem identify_critical_emails_spec_witness :
    (([⟨"problème urgent", "", "", "", ""⟩] : List EmailRecord).countP
      fun r => criticalityScore r ≥ 4) ≤ 5 ∧
    (mkCriticalEntry ⟨"problème urgent", "", "", "", ""⟩ ∈
      identify_critical_emails [⟨"problème urgent", "", "", "", ""⟩] ↔
        criticalityScore ⟨"problème urgent", "", "", "", ""⟩ ≥ 4) ∧
    mkCriticalEntry ⟨"problème urgent", "", "", "", ""⟩ ∈
      identify_critical_emails [⟨"problème urgent", "", "", "", ""⟩] := by
  have h := identify_critical_emails_spec [⟨"problème urgent", "", "", "", ""⟩]
  have hiff := h.2.2.2.2.2 (by decide) ⟨"problème urgent", "", "", "", ""⟩ (by decide)
  exact ⟨by decide, hiff, hiff.mpr (by decide)⟩
